import Mathlib

/- Verification of the classification/routing engine of the remissorterare
repository. The Python sources are embedded shallowly: texts are lists of
characters (Python string indices are character positions), confidences are
rationals, and the fallible AI/ML backends are parameters of type
Except/Option so that caught exceptions are explicit values. -/

namespace Remissorterare

set_option maxRecDepth 40000

/-- Model of Python str.lower restricted to ASCII letters and the Swedish
letters of this repository's configuration and texts. -/
def pyLowerChar (c : Char) : Char :=
  if 'A' ≤ c ∧ c ≤ 'Z' then Char.ofNat (c.toNat + 32)
  else if c = 'Å' then 'å'
  else if c = 'Ä' then 'ä'
  else if c = 'Ö' then 'ö'
  else if c = 'É' then 'é'
  else c

def pyLower (l : List Char) : List Char := l.map pyLowerChar

def findSubAux (needle : List Char) : List Char → Nat → Option Nat
  | [], i => if needle.isPrefixOf ([] : List Char) then some i else none
  | c :: t, i => if needle.isPrefixOf (c :: t) then some i else findSubAux needle t (i + 1)

/-- Character index of the first occurrence of needle in hay: model of Python
str.find, with none standing for the -1 result. -/
def findSub (hay needle : List Char) : Option Nat := findSubAux needle hay 0

/-- Model of the Python substring test needle in hay. -/
def containsSub (hay needle : List Char) : Bool := (findSub hay needle).isSome

def countSubAux (needle : List Char) : List Char → Nat → Nat
  | [], _ => 0
  | _ :: t, k + 1 => countSubAux needle t k
  | c :: t, 0 =>
    if needle.isPrefixOf (c :: t) then 1 + countSubAux needle t (needle.length - 1)
    else countSubAux needle t 0

/-- Model of Python str.count: number of non-overlapping occurrences,
scanning left to right. -/
def countSub (hay needle : List Char) : Nat :=
  (if needle.isEmpty then 1 else 0) + countSubAux needle hay 0

/-- Model of Python str.strip with no argument. -/
def stripWs (l : List Char) : List Char :=
  (((l.dropWhile Char.isWhitespace).reverse).dropWhile Char.isWhitespace).reverse

/-- The part of the line after the first colon: model of splitting the line
at the first colon and keeping the second part, as the parser does under a
startswith guard. -/
def efterKolon (l : List Char) : List Char :=
  (l.dropWhile (fun c => c ≠ ':')).drop 1

/- Configuration (config.py). -/

/-- Minimum confidence for sorting into a category folder (config.py line 6). -/
def SANNOLIKHET_TROSKEL : ℚ := 90

/-- The category registry with its ordered keyword lists
(config.py lines 14-93), embedded verbatim. -/
def VERKSAMHETER : List (String × List String) := [
  ("Ortopedi", [
    "ortopedi", "ortopedisk", "led", "leder", "knä", "höft", "rygg", "ryggrad",
    "fraktur", "brott", "artros", "artrit", "reumatism", "reumatoid",
    "spondylit", "skolios", "hernia", "diskbråck", "menisk", "korsband",
    "tendinit", "bursit", "karpaltunnelsyndrom", "frozen shoulder"]),
  ("Kirurgi", [
    "kirurgi", "kirurgisk", "operation", "operera", "kirurg", "snitt",
    "laparoskopi", "endoskopi", "biopsi", "tumör", "cancer", "malign",
    "benign", "appendicit", "gallsten", "hernia", "bråck", "polyp",
    "cholecystektomi", "appendektomi", "mastectomi", "prostatektomi",
    "gastrektomi", "kolonresektion", "leversektion", "pankreatektomi",
    "splenektomi", "adrenalektomi", "thyreoidektomi", "parathyreoidektomi",
    "tracheostomi", "gastrostomi", "jejunostomi", "kolostomi", "ileostomi",
    "urostomi", "nephrektomi", "cystektomi", "prostatektomi", "penektomi",
    "amputation", "replantation", "transplantation", "bypass", "stent",
    "angioplasti", "endarterektomi", "aneurysm", "varicer", "trombos",
    "emboli", "ischemi", "nekros", "gangrän", "abscess", "fistel"]),
  ("Kardiologi", [
    "kardiologi", "kardiologisk", "hjärta", "hjärt", "kardiak", "arytmi",
    "fibrillering", "angina", "infarkt", "myokard", "ekg", "ekokardiografi",
    "stent", "bypass", "pacemaker", "defibrillator", "blodtryck", "hypertension",
    "hjärtsvikt", "kardiomyopati", "perikardit", "endokardit"]),
  ("Neurologi", [
    "neurologi", "neurologisk", "hjärna", "hjärn", "nerv", "neurolog",
    "stroke", "cerebral", "epilepsi", "parkinson", "alzheimer", "demens",
    "migrän", "huvudvärk", "ms", "multipel skleros", "tumör", "cancer",
    "meningit", "encefalit", "neuropati", "radikulopati"]),
  ("Gastroenterologi", [
    "gastroenterologi", "gastroenterologisk", "mage", "mag", "tarm", "lever",
    "galla", "bukspottkörtel", "ulcus", "sår", "kolit", "crohn", "celiaki",
    "reflux", "esofagit", "gastrit", "hepatit", "cirros", "pankreatit",
    "divertikulit", "irritable bowel", "ibs"]),
  ("Endokrinologi", [
    "endokrinologi", "endokrinologisk", "diabetes", "socker", "glukos",
    "insulin", "sköldkörtel", "thyreoidea", "hypofys", "binjurar",
    "hormon", "kortisol", "testosteron", "östrogen", "progesteron",
    "hypothyreos", "hyperthyreos", "cushing", "addison", "acromegali"]),
  ("Dermatologi", [
    "dermatologi", "dermatologisk", "hud", "hud", "eksem", "psoriasis",
    "akne", "vårtor", "födelsemärke", "melanom", "cancer", "allergi",
    "urticaria", "rosacea", "vitiligo", "alopeci", "basalcellscancer",
    "plattcellscancer", "keratos", "dermatit"]),
  ("Urologi", [
    "urologi", "urologisk", "urin", "urinblåsa", "prostata", "njure",
    "ureter", "urinrör", "urininkontinens", "prostatit", "cystit",
    "sten", "tumör", "cancer", "impotens", "infertilitet", "pyelonefrit",
    "glomerulonefrit", "hydronefros", "vesikoureteral reflux"]),
  ("Gynekologi", [
    "gynekologi", "gynekologisk", "gynekolog", "livmoder", "äggstockar",
    "menstruation", "menopaus", "endometrios", "myom", "cervix",
    "ovariell", "mammografi", "bröst", "graviditet", "förlossning",
    "uterus", "ovarium", "endometrium", "myometrium", "cervixcancer",
    "bröstcancer", "ovariecancer", "endometrioscancer", "fibrom",
    "cysta", "polycystiskt ovariesyndrom", "pcos", "infertilitet",
    "assisterad befruktning", "ivf", "insemination", "äggdonation",
    "spermadonation", "premenstruellt syndrom", "pms", "dysmenorré",
    "amenorré", "metrorragi", "menorragi", "dyspareuni", "vaginism",
    "vulvodyni", "vulvovaginit", "bakteriell vaginos", "candida",
    "könssjukdomar", "könssjukdom", "std", "könssjukdomar"]),
  ("Oftalmologi", [
    "oftalmologi", "oftalmologisk", "öga", "ögon", "syn", "katarakt",
    "glaukom", "retina", "makula", "diabetisk retinopati", "strabism",
    "amblyopi", "konjunktivit", "keratit", "uveit"]),
  ("Otorinolaryngologi", [
    "otorinolaryngologi", "ent", "öra", "näsa", "hals", "tonsillit",
    "otit", "sinusit", "rinit", "laryngit", "faryngit", "hörsel",
    "yrsel", "tinnitus", "vertigo", "menieres"])]

def verksamhetsNamn : List String := VERKSAMHETER.map Prod.fst

/-- Recipient phrases (remiss_sorterare.py lines 323-328), in source order,
duplicate included. -/
def mottagarfraser : List String := [
  "remiss till", "remitteras till", "mottagare:", "mottagande verksamhet:",
  "mottagande avdelning:", "remissadress:", "till:", "för:", "till verksamhet:",
  "till avdelning:", "till klinik:", "till mottagare:", "till specialist:",
  "remitteras till", "skickas till", "överlämnas till", "överförs till"]

/-- Literal clinic and department names per category
(remiss_sorterare.py lines 346-358). -/
def mottagarkliniker : List (String × List String) := [
  ("Ortopedi", ["ortopedklinik", "ortopedkliniken", "ortopedavdelning", "ortopedavdelningen"]),
  ("Kirurgi", ["kirurgklinik", "kirurgkliniken", "kirurgavdelning", "kirurgavdelningen"]),
  ("Kardiologi", ["kardioklinik", "kardiokliniken", "kardioavdelning", "kardioavdelningen"]),
  ("Neurologi", ["neurologklinik", "neurologkliniken", "neurologavdelning", "neurologavdelningen"]),
  ("Gastroenterologi", ["gastroklinik", "gastrokliniken", "gastroavdelning", "gastroavdelningen"]),
  ("Endokrinologi", ["endokrinklinik", "endokrinkliniken", "endokrinavdelning", "endokrinavdelningen"]),
  ("Dermatologi", ["dermaklinik", "dermakliniken", "dermaavdelning", "dermaavdelningen"]),
  ("Urologi", ["uroklinik", "urokliniken", "uroavdelning", "uroavdelningen"]),
  ("Gynekologi", ["gynekoklinik", "gynekokliniken", "gynekoavdelning", "gynekoavdelningen"]),
  ("Oftalmologi", ["ögonklinik", "ögonkliniken", "ögonavdelning", "ögonavdelningen"]),
  ("Otorinolaryngologi", ["ent-klinik", "ent-kliniken", "ent-avdelning", "ent-avdelningen"])]

/-- Strong gynecological indicator terms (remiss_sorterare.py lines 401-403). -/
def gynekologiska_termer : List String := [
  "livmoder", "äggstockar", "menstruation", "menopaus", "endometrios",
  "myom", "cervix", "ovariell", "mammografi", "bröst", "graviditet",
  "förlossning", "uterus", "ovarium"]

/-- Strong surgical indicator terms (remiss_sorterare.py lines 410-412). -/
def kirurgiska_termer : List String := [
  "operation", "operera", "kirurgisk", "snitt", "laparoskopi",
  "endoskopi", "biopsi", "appendicit", "gallsten", "hernia",
  "bråck", "polyp", "cholecystektomi", "appendektomi"]

/- Keyword scorer: the terminal fallback of
RemissSorterare.identifiera_verksamhet (remiss_sorterare.py lines 375-434). -/

/-- Number of strong-indicator terms present in the lowercased text. -/
def termTraffar (termer : List String) (tl : List Char) : Nat :=
  (termer.filter (fun term => containsSub tl term.data)).length

/-- Number of recipient phrases present in the text whose first occurrence
lies within 100 characters of the first occurrence of the keyword
(remiss_sorterare.py lines 391-397). -/
def frasNara (tl : List Char) (nyckelLower : List Char) : Nat :=
  (mottagarfraser.filter (fun fras =>
    match findSub tl fras.data, findSub tl nyckelLower with
    | some frasIdx, some nyckelIdx =>
      decide (((frasIdx : Int) - (nyckelIdx : Int)).natAbs < 100)
    | _, _ => false)).length

/-- Score contribution of one keyword to a category: if the keyword occurs,
its occurrence count times 2, plus 10 per nearby recipient phrase, plus 15
per strong gynecological or surgical term present in the text when the
category is Gynekologi or Kirurgi (remiss_sorterare.py lines 384-415). -/
def bidrag (tl : List Char) (verksamhet : String) (nyckel : String) : Nat :=
  let nl := pyLower nyckel.data
  let antal := countSub tl nl
  if antal = 0 then 0
  else
    antal * 2
      + 10 * frasNara tl nl
      + (if verksamhet = "Gynekologi" then 15 * termTraffar gynekologiska_termer tl else 0)
      + (if verksamhet = "Kirurgi" then 15 * termTraffar kirurgiska_termer tl else 0)

/-- Total score of one category over the lowercased text
(the inner loop of remiss_sorterare.py lines 380-415). -/
def poangFor (tl : List Char) (verksamhet : String) (nyckelord : List String) : Nat :=
  nyckelord.foldl (fun acc nyckel => acc + bidrag tl verksamhet nyckel) 0

/-- Normalized confidence of one category
(remiss_sorterare.py line 418). -/
def sannolikhetFor (tl : List Char) (p : String × List String) : ℚ :=
  min 100 ((poangFor tl p.1 p.2 : ℚ) / (p.2.length : ℚ) * 15)

/-- Best category and confidence over the registry, updated only on a
strictly greater confidence (remiss_sorterare.py lines 376-425). -/
def fallbackPoang (tl : List Char) : String × ℚ :=
  VERKSAMHETER.foldl
    (fun basta p =>
      let s := sannolikhetFor tl p
      if basta.2 < s then (p.1, s) else basta)
    ("Okänd", 0)

/-- The keyword fallback result, forced to osakert when the best confidence
is below 30 (remiss_sorterare.py lines 427-434). -/
def nyckelordFallback (tl : List Char) : String × ℚ :=
  let basta := fallbackPoang tl
  if basta.2 < 30 then ("osakert", basta.2) else basta

/- Phrase and clinic-name matcher
(remiss_sorterare.py lines 322-364). -/

/-- First registry category, in registration order, with some keyword
occurring in the window (remiss_sorterare.py lines 339-343). -/
def windowMatch (efter : List Char) : Option String :=
  VERKSAMHETER.findSome? fun p =>
    if p.2.any (fun nyckel => containsSub efter (pyLower nyckel.data)) then some p.1
    else none

/-- Recipient-phrase matcher: for the first phrase that occurs in the text
and whose 200-character window starting at the match holds some category
keyword, that category with confidence 95
(remiss_sorterare.py lines 331-343). -/
def sokMottagare (tl : List Char) : Option (String × ℚ) :=
  mottagarfraser.findSome? fun fras =>
    match findSub tl fras.data with
    | none => none
    | some idx =>
      match windowMatch ((tl.drop idx).take 200) with
      | some v => some (v, 95)
      | none => none

/-- Clinic-name matcher: first category, in order, with a clinic-name
substring in the text, at confidence 90
(remiss_sorterare.py lines 360-364). -/
def sokKliniker (tl : List Char) : Option (String × ℚ) :=
  mottagarkliniker.findSome? fun p =>
    if p.2.any (fun klinik => containsSub tl klinik.data) then some (p.1, 90)
    else none

/- Cascade orchestrator (remiss_sorterare.py lines 298-434). The AI stage
outcome is an Option (absent when no AI identifier is configured) of an
Except (an error value stands for a raised exception, caught by the
orchestrator); the ML stage outcome likewise is an Except. -/

/-- AI stage acceptance: a non-raising call whose category differs from
Okänd with confidence strictly above 70 is returned at once; a raised
exception or a weak answer falls through
(remiss_sorterare.py lines 311-320). -/
def aiAccept : Option (Except String (String × ℚ)) → Option (String × ℚ)
  | some (Except.ok (v, s)) => if v ≠ "Okänd" ∧ 70 < s then some (v, s) else none
  | _ => none

/-- ML stage acceptance: a non-raising call with confidence strictly above
70 is returned; an exception is caught and falls through
(remiss_sorterare.py lines 366-373). -/
def mlAccept : Except String (String × ℚ) → Option (String × ℚ)
  | Except.ok (v, s) => if 70 < s then some (v, s) else none
  | Except.error _ => none

/-- RemissSorterare.identifiera_verksamhet: the five-stage cascade over the
lowercased text (remiss_sorterare.py lines 298-434). -/
def identifiera_verksamhet (ai : Option (Except String (String × ℚ)))
    (ml : Except String (String × ℚ)) (text : String) : String × ℚ :=
  let tl := pyLower text.data
  match aiAccept ai with
  | some r => r
  | none =>
    match sokMottagare tl with
    | some r => r
    | none =>
      match sokKliniker tl with
      | some r => r
      | none =>
        match mlAccept ml with
        | some r => r
        | none => nyckelordFallback tl

/-- Tags for the cascade stages, used to record which stages a run consults. -/
inductive Steg
  | ai
  | fras
  | klinik
  | ml
  | nyckelord
deriving DecidableEq

/-- The stages an AI-configured run consults before the phrase matcher:
the AI stage is consulted exactly when an AI identifier is configured. -/
def aiSpar : Option (Except String (String × ℚ)) → List Steg
  | some _ => [Steg.ai]
  | none => []

/-- Instrumented cascade: the same control flow as identifiera_verksamhet,
additionally recording the stages consulted, in order. -/
def identifiera_verksamhet_spar (ai : Option (Except String (String × ℚ)))
    (ml : Except String (String × ℚ)) (text : String) : (String × ℚ) × List Steg :=
  let tl := pyLower text.data
  match aiAccept ai with
  | some r => (r, aiSpar ai)
  | none =>
    match sokMottagare tl with
    | some r => (r, aiSpar ai ++ [Steg.fras])
    | none =>
      match sokKliniker tl with
      | some r => (r, aiSpar ai ++ [Steg.fras, Steg.klinik])
      | none =>
        match mlAccept ml with
        | some r => (r, aiSpar ai ++ [Steg.fras, Steg.klinik, Steg.ml])
        | none =>
          (nyckelordFallback tl, aiSpar ai ++ [Steg.fras, Steg.klinik, Steg.ml, Steg.nyckelord])

/- External-model adapter response parser
(ai_verksamhetsidentifierare.py lines 151-195; the same code appears in
lokal_ai_verksamhetsidentifierare.py lines 495-536). -/

/-- Does the lowercased line start with the marker. -/
def radBorjarMed (rad : List Char) (marker : String) : Bool :=
  marker.data.isPrefixOf (pyLower rad)

def digitsOnly (l : List Char) : Bool := l.all Char.isDigit

def digitsVal (l : List Char) : Nat :=
  l.foldl (fun a c => a * 10 + (c.toNat - 48)) 0

/-- Model of the Python float constructor restricted to optionally signed
decimal literals; scientific notation, inf and nan are outside the shapes
this adapter receives and are unmodeled. -/
def pyFloat (l : List Char) : Option ℚ :=
  let l := stripWs l
  let p : Bool × List Char :=
    match l with
    | '+' :: t => (false, t)
    | '-' :: t => (true, t)
    | t => (false, t)
  let heltal := p.2.takeWhile (fun c => c ≠ '.')
  let rest := p.2.dropWhile (fun c => c ≠ '.')
  let q : Option ℚ :=
    match rest with
    | [] =>
      if heltal ≠ [] ∧ digitsOnly heltal then some ((digitsVal heltal : ℚ)) else none
    | _ :: dec =>
      if (heltal ≠ [] ∨ dec ≠ []) ∧ digitsOnly heltal ∧ digitsOnly dec ∧
          dec.all (fun c => c ≠ '.') then
        some ((digitsVal heltal : ℚ) + (digitsVal dec : ℚ) / ((10 : ℚ) ^ dec.length))
      else none
  q.map (fun x => if p.1 then -x else x)

/-- The category named by the response: the first line whose lowercase form
starts with the verksamhet marker, split at the colon and stripped; Okänd
when no such line exists (ai_verksamhetsidentifierare.py lines 156-163). -/
def extractVerksamhet (svar : String) : String :=
  match (svar.data.splitOn '\n').findSome? (fun rad =>
      if radBorjarMed rad "verksamhet:" then some (String.mk (stripWs (efterKolon rad)))
      else none) with
  | some v => v
  | none => "Okänd"

/-- The confidence reported by the response: the first line whose lowercase
form starts with the sannolikhet marker and whose value, stripped and with
every percent sign removed, parses as a float; a line that fails to parse is
skipped, as the except-pass of the loop does
(ai_verksamhetsidentifierare.py lines 165-173). -/
def extractSannolikhet (svar : String) : Option ℚ :=
  (svar.data.splitOn '\n').findSome? fun rad =>
    if radBorjarMed rad "sannolikhet:" then
      pyFloat ((stripWs (efterKolon rad)).filter (fun c => c ≠ '%'))
    else none

/-- AIVerksamhetsIdentifierare._parsa_ai_svar
(ai_verksamhetsidentifierare.py lines 151-195). The difflib-based nearest
registered-category correction applied to an unregistered category name is
an external-library call and enters as the parameter narmaste. An
unparseable or missing confidence leaves the initial value 0; the
validation then defaults an out-of-range value to 75 and coerces an exact 0
with a non-Okänd category to 50. -/
def parsaAiSvar (narmaste : String → String) (svar : String) : String × ℚ :=
  let verksamhet0 := extractVerksamhet svar
  let sannolikhet0 := (extractSannolikhet svar).getD 0
  let verksamhet :=
    if verksamhet0 ∈ verksamhetsNamn then verksamhet0 else narmaste verksamhet0
  let sannolikhet :=
    if ¬(0 ≤ sannolikhet0 ∧ sannolikhet0 ≤ 100) then (75 : ℚ)
    else if sannolikhet0 = 0 ∧ verksamhet ≠ "Okänd" then 50
    else sannolikhet0
  (verksamhet, sannolikhet)

/-- The try-except around the whole backend call of
AIVerksamhetsIdentifierare.identifiera_verksamhet: any raised error yields
the pair of Okänd and 0 (ai_verksamhetsidentifierare.py lines 117-120;
lokal_ai_verksamhetsidentifierare.py lines 293-295). -/
def aiIdentifieraAdapter (backend : Except String (String × ℚ)) : String × ℚ :=
  match backend with
  | Except.ok r => r
  | Except.error _ => ("Okänd", 0)

/- Statistical classifier predict
(ml_verksamhetsidentifierare.py lines 168-212). -/

/-- MLVerksamhetsIdentifierare.fallback_identifiering: builds a fresh
RemissSorterare and runs its full cascade; the AI and ML stage outcomes of
that fresh instance are the parameters
(ml_verksamhetsidentifierare.py lines 202-212). -/
def fallback_identifiering (fbAi : Option (Except String (String × ℚ)))
    (fbMl : Except String (String × ℚ)) (text : String) : String × ℚ :=
  identifiera_verksamhet fbAi fbMl text

/-- MLVerksamhetsIdentifierare.identifiera_verksamhet: the trained model
prediction when available, the fallback when the model is untrained or the
prediction raises (ml_verksamhetsidentifierare.py lines 168-200). -/
def ml_identifiera_verksamhet (trained : Bool) (model : Except String (String × ℚ))
    (fbAi : Option (Except String (String × ℚ))) (fbMl : Except String (String × ℚ))
    (text : String) : String × ℚ :=
  if trained = false then fallback_identifiering fbAi fbMl text
  else
    match model with
    | Except.ok r => r
    | Except.error _ => fallback_identifiering fbAi fbMl text

/- Routing (remiss_sorterare.py lines 493-499). -/

/-- Routing target of a processed document. -/
inductive MalMapp
  | verksamhet (namn : String)
  | osakert
deriving DecidableEq

/-- The folder choice of RemissSorterare.bearbeta_pdf: the category folder
when the confidence reaches the global threshold, the osakert folder
otherwise (remiss_sorterare.py lines 494-499). -/
def bestamMalMapp (verksamhet : String) (sannolikhet : ℚ) : MalMapp :=
  if SANNOLIKHET_TROSKEL ≤ sannolikhet then MalMapp.verksamhet verksamhet
  else MalMapp.osakert

/- Definitions written from the wording of the specification, for
comparison against the embeddings above. -/

/-- Written from the spec wording of the window scan: within the window the
first category keyword encountered by forward scan wins. At each window
position the registry is consulted in order for a keyword starting there. -/
def windowMatchSpec (efter : List Char) : Option String :=
  (List.range efter.length).findSome? fun p =>
    VERKSAMHETER.findSome? fun q =>
      if q.2.any (fun nyckel => (pyLower nyckel.data).isPrefixOf (efter.drop p)) then some q.1
      else none

/-- Written from the spec wording of the phrase matcher: as sokMottagare,
with the window inspected by forward scan. -/
def sokMottagareSpec (tl : List Char) : Option (String × ℚ) :=
  mottagarfraser.findSome? fun fras =>
    match findSub tl fras.data with
    | none => none
    | some idx =>
      match windowMatchSpec ((tl.drop idx).take 200) with
      | some v => some (v, 95)
      | none => none

/-- Keyword contribution without the category-specific strong-term bonus:
occurrences times 2 plus 10 per nearby recipient phrase. -/
def bidragUtanBonus (tl : List Char) (nyckel : String) : Nat :=
  let nl := pyLower nyckel.data
  let antal := countSub tl nl
  if antal = 0 then 0 else antal * 2 + 10 * frasNara tl nl

/-- The strong-term bonus a category adds per matched keyword
(remiss_sorterare.py lines 399-415). -/
def bonusFor (verksamhet : String) (tl : List Char) : Nat :=
  (if verksamhet = "Gynekologi" then 15 * termTraffar gynekologiska_termer tl else 0)
    + (if verksamhet = "Kirurgi" then 15 * termTraffar kirurgiska_termer tl else 0)

/-- Written from the claim wording of the strong-term bonus: 15 per term
present in the text, added once to the category total, independent of how
many of the category keywords matched. -/
def poangForSpec (tl : List Char) (verksamhet : String) (nyckelord : List String) : Nat :=
  nyckelord.foldl (fun acc nyckel => acc + bidragUtanBonus tl nyckel) 0 + bonusFor verksamhet tl

/-- Keyword list of a registered category. -/
def nyckelordFor (v : String) : List String :=
  (VERKSAMHETER.find? (fun p => p.1 == v)).elim [] Prod.snd

/-- The accumulator update of the fallback selection loop
(remiss_sorterare.py lines 423-425), abstracted over any scored list. -/
def valjBasta (l : List (String × ℚ)) (init : String × ℚ) : String × ℚ :=
  l.foldl (fun basta q => if basta.2 < q.2 then q else basta) init

/- General lemmas about the embedding combinators. -/

lemma findSome?_eq_some_ex {α β : Type} {f : α → Option β} {l : List α} {b : β}
    (h : l.findSome? f = some b) : ∃ a ∈ l, f a = some b := by
  induction l with
  | nil => simp [List.findSome?_nil] at h
  | cons x t ih =>
    rw [List.findSome?_cons] at h
    cases hfx : f x with
    | some c =>
      rw [hfx] at h
      have h' : some c = some b := h
      exact ⟨x, List.mem_cons_self x t, hfx.trans h'⟩
    | none =>
      rw [hfx] at h
      have h' : t.findSome? f = some b := h
      obtain ⟨a, ha, hfa⟩ := ih h'
      exact ⟨a, List.mem_cons_of_mem x ha, hfa⟩

lemma findSome?_eq_some_forsta {α β : Type} {f : α → Option β} {l : List α} {b : β}
    (h : l.findSome? f = some b) :
    ∃ i, ∃ hi : i < l.length, f (l.get ⟨i, hi⟩) = some b ∧
      ∀ j, ∀ hj : j < l.length, j < i → f (l.get ⟨j, hj⟩) = none := by
  induction l with
  | nil => simp [List.findSome?_nil] at h
  | cons x t ih =>
    rw [List.findSome?_cons] at h
    cases hfx : f x with
    | some c =>
      rw [hfx] at h
      have h' : some c = some b := h
      exact ⟨0, Nat.succ_pos _, hfx.trans h', fun j hj hj0 => absurd hj0 (Nat.not_lt_zero j)⟩
    | none =>
      rw [hfx] at h
      have h' : t.findSome? f = some b := h
      obtain ⟨i, hi, hf, hprev⟩ := ih h'
      refine ⟨i + 1, Nat.succ_lt_succ hi, hf, ?_⟩
      intro j hj hji
      cases j with
      | zero => exact hfx
      | succ j' => exact hprev j' (Nat.lt_of_succ_lt_succ hj) (Nat.lt_of_succ_lt_succ hji)

lemma valjBasta_cons (q : String × ℚ) (l : List (String × ℚ)) (init : String × ℚ) :
    valjBasta (q :: l) init = valjBasta l (if init.2 < q.2 then q else init) := rfl

lemma valjBasta_snd (l : List (String × ℚ)) (init : String × ℚ) :
    (valjBasta l init).2 = (l.map Prod.snd).foldl max init.2 := by
  induction l generalizing init with
  | nil => rfl
  | cons q t ih =>
    rw [valjBasta_cons, List.map_cons, List.foldl_cons, ih]
    have hinit : (if init.2 < q.2 then q else init).2 = max init.2 q.2 := by
      by_cases hlt : init.2 < q.2
      · rw [if_pos hlt]; exact (max_eq_right hlt.le).symm
      · rw [if_neg hlt]; exact (max_eq_left (not_lt.mp hlt)).symm
    rw [hinit]

lemma valjBasta_cases (l : List (String × ℚ)) (init : String × ℚ) :
    valjBasta l init = init ∨ (valjBasta l init ∈ l ∧ init.2 < (valjBasta l init).2) := by
  induction l generalizing init with
  | nil => exact Or.inl rfl
  | cons q t ih =>
    rw [valjBasta_cons]
    by_cases hlt : init.2 < q.2
    · rw [if_pos hlt]
      rcases ih q with h | ⟨hmem, hgt⟩
      · right
        rw [h]
        exact ⟨List.mem_cons_self _ _, hlt⟩
      · exact Or.inr ⟨List.mem_cons_of_mem _ hmem, lt_trans hlt hgt⟩
    · rw [if_neg hlt]
      rcases ih init with h | ⟨hmem, hgt⟩
      · exact Or.inl h
      · exact Or.inr ⟨List.mem_cons_of_mem _ hmem, hgt⟩

lemma valjBasta_stanna (l : List (String × ℚ)) (init : String × ℚ)
    (h : ∀ q ∈ l, q.2 ≤ init.2) : valjBasta l init = init := by
  induction l with
  | nil => rfl
  | cons q t ih =>
    rw [valjBasta_cons, if_neg (not_lt.mpr (h q (List.mem_cons_self q t)))]
    exact ih (fun p hp => h p (List.mem_cons_of_mem q hp))

lemma valjBasta_forsta (l : List (String × ℚ)) (init : String × ℚ) (i : Nat) (hi : i < l.length)
    (hinit : init.2 < (l.get ⟨i, hi⟩).2)
    (hforst : ∀ j, ∀ hj : j < l.length, j < i → (l.get ⟨j, hj⟩).2 < (l.get ⟨i, hi⟩).2)
    (hmax : ∀ j, ∀ hj : j < l.length, (l.get ⟨j, hj⟩).2 ≤ (l.get ⟨i, hi⟩).2) :
    valjBasta l init = l.get ⟨i, hi⟩ := by
  induction l generalizing init i with
  | nil => exact absurd hi (Nat.not_lt_zero i)
  | cons q t ih =>
    cases i with
    | zero =>
      have hq0 : init.2 < q.2 := hinit
      rw [valjBasta_cons, if_pos hq0]
      have hg : (q :: t).get ⟨0, hi⟩ = q := rfl
      rw [hg]
      apply valjBasta_stanna
      intro p hp
      obtain ⟨⟨j, hj⟩, hget⟩ := List.mem_iff_get.mp hp
      rw [← hget]
      exact hmax (j + 1) (Nat.succ_lt_succ hj)
    | succ i' =>
      rw [valjBasta_cons]
      have hi' : i' < t.length := Nat.lt_of_succ_lt_succ hi
      have hq : q.2 < (t.get ⟨i', hi'⟩).2 := hforst 0 (Nat.succ_pos _) (Nat.succ_pos _)
      by_cases hlt : init.2 < q.2
      · rw [if_pos hlt]
        exact ih q i' hi' hq
          (fun j hj hji => hforst (j + 1) (Nat.succ_lt_succ hj) (Nat.succ_lt_succ hji))
          (fun j hj => hmax (j + 1) (Nat.succ_lt_succ hj))
      · rw [if_neg hlt]
        exact ih init i' hi' hinit
          (fun j hj hji => hforst (j + 1) (Nat.succ_lt_succ hj) (Nat.succ_lt_succ hji))
          (fun j hj => hmax (j + 1) (Nat.succ_lt_succ hj))

lemma fallbackPoang_eq_valjBasta (tl : List Char) :
    fallbackPoang tl = valjBasta (VERKSAMHETER.map fun p => (p.1, sannolikhetFor tl p)) ("Okänd", 0) := by
  unfold fallbackPoang valjBasta
  rw [List.foldl_map]

lemma sannolikhetFor_nonneg (tl : List Char) (p : String × List String) :
    0 ≤ sannolikhetFor tl p := by
  unfold sannolikhetFor
  refine le_min (by norm_num) ?_
  positivity

lemma sannolikhetFor_le_100 (tl : List Char) (p : String × List String) :
    sannolikhetFor tl p ≤ 100 :=
  min_le_left _ _

lemma verksamhetsNamn_ok : ∀ v ∈ verksamhetsNamn, v ≠ "Okänd" ∧ v ≠ "osakert" := by decide

lemma klinikNamn_ok : ∀ v ∈ mottagarkliniker.map Prod.fst, v ≠ "Okänd" ∧ v ≠ "osakert" := by
  decide

lemma windowMatch_some {efter : List Char} {v : String} (h : windowMatch efter = some v) :
    v ∈ verksamhetsNamn := by
  obtain ⟨p, hp, hfp⟩ := findSome?_eq_some_ex h
  by_cases hany : (p.2.any fun nyckel => containsSub efter (pyLower nyckel.data)) = true
  · have h' : some p.1 = some v := by
      have h2 : (if (p.2.any fun nyckel => containsSub efter (pyLower nyckel.data)) = true
          then some p.1 else none) = some v := hfp
      rwa [if_pos hany] at h2
    rw [← Option.some.inj h']
    exact List.mem_map_of_mem Prod.fst hp
  · have h2 : (if (p.2.any fun nyckel => containsSub efter (pyLower nyckel.data)) = true
        then some p.1 else none) = some v := hfp
    rw [if_neg hany] at h2
    cases h2

lemma sokMottagare_some {tl : List Char} {r : String × ℚ} (h : sokMottagare tl = some r) :
    r.2 = 95 ∧ r.1 ∈ verksamhetsNamn := by
  obtain ⟨fras, hmem, hf⟩ := findSome?_eq_some_ex h
  cases hidx : findSub tl fras.data with
  | none =>
    rw [hidx] at hf
    have h' : (none : Option (String × ℚ)) = some r := hf
    cases h'
  | some idx =>
    rw [hidx] at hf
    have hf' : (match windowMatch ((tl.drop idx).take 200) with
        | some v => some (v, (95 : ℚ))
        | none => none) = some r := hf
    cases hw : windowMatch ((tl.drop idx).take 200) with
    | none =>
      rw [hw] at hf'
      have h' : (none : Option (String × ℚ)) = some r := hf'
      cases h'
    | some v =>
      rw [hw] at hf'
      have h' : some (v, (95 : ℚ)) = some r := hf'
      rw [← Option.some.inj h']
      exact ⟨rfl, windowMatch_some hw⟩

lemma sokKliniker_some {tl : List Char} {r : String × ℚ} (h : sokKliniker tl = some r) :
    r.2 = 90 ∧ r.1 ∈ mottagarkliniker.map Prod.fst := by
  obtain ⟨p, hp, hfp⟩ := findSome?_eq_some_ex h
  by_cases hany : (p.2.any fun klinik => containsSub tl klinik.data) = true
  · have h2 : (if (p.2.any fun klinik => containsSub tl klinik.data) = true
        then some (p.1, (90 : ℚ)) else none) = some r := hfp
    rw [if_pos hany] at h2
    rw [← Option.some.inj h2]
    exact ⟨rfl, List.mem_map_of_mem Prod.fst hp⟩
  · have h2 : (if (p.2.any fun klinik => containsSub tl klinik.data) = true
        then some (p.1, (90 : ℚ)) else none) = some r := hfp
    rw [if_neg hany] at h2
    cases h2

lemma aiAccept_some {ai : Option (Except String (String × ℚ))} {r : String × ℚ}
    (h : aiAccept ai = some r) :
    ∃ v s, ai = some (Except.ok (v, s)) ∧ r = (v, s) ∧ v ≠ "Okänd" ∧ 70 < s := by
  match ai with
  | none => cases h
  | some (Except.error e) => cases h
  | some (Except.ok (v, s)) =>
    refine ⟨v, s, rfl, ?_⟩
    have h' : (if v ≠ "Okänd" ∧ 70 < s then some (v, s) else none) = some r := h
    by_cases hc : v ≠ "Okänd" ∧ 70 < s
    · rw [if_pos hc] at h'
      exact ⟨(Option.some.inj h').symm, hc.1, hc.2⟩
    · rw [if_neg hc] at h'
      cases h'

lemma mlAccept_some {ml : Except String (String × ℚ)} {r : String × ℚ}
    (h : mlAccept ml = some r) : ∃ v s, ml = Except.ok (v, s) ∧ r = (v, s) ∧ 70 < s := by
  match ml with
  | Except.error e => cases h
  | Except.ok (v, s) =>
    refine ⟨v, s, rfl, ?_⟩
    have h' : (if 70 < s then some (v, s) else none) = some r := h
    by_cases hc : 70 < s
    · rw [if_pos hc] at h'
      exact ⟨(Option.some.inj h').symm, hc⟩
    · rw [if_neg hc] at h'
      cases h'

lemma fallbackPoang_cases (tl : List Char) :
    fallbackPoang tl = ("Okänd", 0) ∨
      ((fallbackPoang tl).1 ∈ verksamhetsNamn ∧ 0 < (fallbackPoang tl).2) := by
  have hcas := valjBasta_cases (VERKSAMHETER.map fun p => (p.1, sannolikhetFor tl p)) ("Okänd", 0)
  rw [← fallbackPoang_eq_valjBasta] at hcas
  rcases hcas with h | ⟨hmem, hpos⟩
  · exact Or.inl h
  · right
    obtain ⟨p, hp, hep⟩ := List.mem_map.mp hmem
    refine ⟨?_, hpos⟩
    rw [← hep]
    exact List.mem_map_of_mem Prod.fst hp

lemma fallbackPoang_le_100 (tl : List Char) : (fallbackPoang tl).2 ≤ 100 := by
  have hcas := valjBasta_cases (VERKSAMHETER.map fun p => (p.1, sannolikhetFor tl p)) ("Okänd", 0)
  rw [← fallbackPoang_eq_valjBasta] at hcas
  rcases hcas with h | ⟨hmem, _⟩
  · rw [h]; norm_num
  · obtain ⟨p, _, hep⟩ := List.mem_map.mp hmem
    rw [← hep]
    exact sannolikhetFor_le_100 tl p

lemma fallbackPoang_nonneg (tl : List Char) : 0 ≤ (fallbackPoang tl).2 := by
  have hcas := valjBasta_cases (VERKSAMHETER.map fun p => (p.1, sannolikhetFor tl p)) ("Okänd", 0)
  rw [← fallbackPoang_eq_valjBasta] at hcas
  rcases hcas with h | ⟨_, hpos⟩
  · rw [h]
  · exact hpos.le

lemma nyckelordFallback_invariant (tl : List Char) :
    (0 ≤ (nyckelordFallback tl).2 ∧ (nyckelordFallback tl).2 ≤ 100) ∧
    (((nyckelordFallback tl).1 = "Okänd" ∨ (nyckelordFallback tl).1 = "osakert") ↔
      (nyckelordFallback tl).2 < 30) := by
  unfold nyckelordFallback
  by_cases hb : (fallbackPoang tl).2 < 30
  · rw [if_pos hb]
    exact ⟨⟨fallbackPoang_nonneg tl, (fallbackPoang_le_100 tl)⟩,
      ⟨fun _ => hb, fun _ => Or.inr rfl⟩⟩
  · rw [if_neg hb]
    refine ⟨⟨fallbackPoang_nonneg tl, fallbackPoang_le_100 tl⟩, ?_, fun h30 => absurd h30 hb⟩
    intro hsent
    exfalso
    rcases fallbackPoang_cases tl with h | ⟨hnamn, _⟩
    · exact hb (by rw [h]; norm_num)
    · rcases hsent with h1 | h1
      · exact (verksamhetsNamn_ok _ hnamn).1 h1
      · exact (verksamhetsNamn_ok _ hnamn).2 h1

lemma identifiera_steg_ai {ai : Option (Except String (String × ℚ))}
    {ml : Except String (String × ℚ)} {text : String} {r : String × ℚ}
    (hA : aiAccept ai = some r) : identifiera_verksamhet ai ml text = r := by
  simp only [identifiera_verksamhet, hA]

lemma identifiera_steg_fras {ai : Option (Except String (String × ℚ))}
    {ml : Except String (String × ℚ)} {text : String} {r : String × ℚ}
    (hA : aiAccept ai = none) (hS : sokMottagare (pyLower text.data) = some r) :
    identifiera_verksamhet ai ml text = r := by
  simp only [identifiera_verksamhet, hA, hS]

lemma identifiera_steg_klinik {ai : Option (Except String (String × ℚ))}
    {ml : Except String (String × ℚ)} {text : String} {r : String × ℚ}
    (hA : aiAccept ai = none) (hS : sokMottagare (pyLower text.data) = none)
    (hK : sokKliniker (pyLower text.data) = some r) :
    identifiera_verksamhet ai ml text = r := by
  simp only [identifiera_verksamhet, hA, hS, hK]

lemma identifiera_steg_ml {ai : Option (Except String (String × ℚ))}
    {ml : Except String (String × ℚ)} {text : String} {r : String × ℚ}
    (hA : aiAccept ai = none) (hS : sokMottagare (pyLower text.data) = none)
    (hK : sokKliniker (pyLower text.data) = none) (hM : mlAccept ml = some r) :
    identifiera_verksamhet ai ml text = r := by
  simp only [identifiera_verksamhet, hA, hS, hK, hM]

lemma identifiera_steg_nyckelord {ai : Option (Except String (String × ℚ))}
    {ml : Except String (String × ℚ)} {text : String}
    (hA : aiAccept ai = none) (hS : sokMottagare (pyLower text.data) = none)
    (hK : sokKliniker (pyLower text.data) = none) (hM : mlAccept ml = none) :
    identifiera_verksamhet ai ml text = nyckelordFallback (pyLower text.data) := by
  simp only [identifiera_verksamhet, hA, hS, hK, hM]

lemma spar_steg_ai {ai : Option (Except String (String × ℚ))}
    {ml : Except String (String × ℚ)} {text : String} {r : String × ℚ}
    (hA : aiAccept ai = some r) :
    identifiera_verksamhet_spar ai ml text = (r, [Steg.ai]) := by
  obtain ⟨v, s, hAi, -, -, -⟩ := aiAccept_some hA
  subst hAi
  simp only [identifiera_verksamhet_spar, hA, aiSpar]

lemma spar_steg_fras {ai : Option (Except String (String × ℚ))}
    {ml : Except String (String × ℚ)} {text : String} {r : String × ℚ}
    (hA : aiAccept ai = none) (hS : sokMottagare (pyLower text.data) = some r) :
    identifiera_verksamhet_spar ai ml text = (r, aiSpar ai ++ [Steg.fras]) := by
  simp only [identifiera_verksamhet_spar, hA, hS]

lemma spar_forsta {ai : Option (Except String (String × ℚ))}
    {ml : Except String (String × ℚ)} {text : String} :
    (identifiera_verksamhet_spar ai ml text).1 = identifiera_verksamhet ai ml text := by
  cases hA : aiAccept ai with
  | some r => rw [identifiera_steg_ai hA, spar_steg_ai hA]
  | none =>
    cases hS : sokMottagare (pyLower text.data) with
    | some r =>
      rw [identifiera_steg_fras hA hS, spar_steg_fras hA hS]
    | none =>
      cases hK : sokKliniker (pyLower text.data) with
      | some r =>
        rw [identifiera_steg_klinik hA hS hK]
        simp only [identifiera_verksamhet_spar, hA, hS, hK]
      | none =>
        cases hM : mlAccept ml with
        | some r =>
          rw [identifiera_steg_ml hA hS hK hM]
          simp only [identifiera_verksamhet_spar, hA, hS, hK, hM]
        | none =>
          rw [identifiera_steg_nyckelord hA hS hK hM]
          simp only [identifiera_verksamhet_spar, hA, hS, hK, hM]

/-- Evaluation bridge: the fallback selection as a fold over the table of
per-category raw scores and keyword counts. -/
lemma fallbackPoang_som_tabell (tl : List Char) :
    fallbackPoang tl =
      (VERKSAMHETER.map (fun p => (p.1, poangFor tl p.1 p.2, p.2.length))).foldl
        (fun basta q =>
          if basta.2 < min 100 ((q.2.1 : ℚ) / (q.2.2 : ℚ) * 15) then
            (q.1, min 100 ((q.2.1 : ℚ) / (q.2.2 : ℚ) * 15))
          else basta)
        ("Okänd", 0) := by
  unfold fallbackPoang
  rw [List.foldl_map]
  rfl

lemma fallbackPoang_artros : fallbackPoang (pyLower "artros".data) = ("Ortopedi", 5 / 4) := by
  rw [fallbackPoang_som_tabell]
  have h : VERKSAMHETER.map
      (fun p => (p.1, poangFor (pyLower "artros".data) p.1 p.2, p.2.length)) =
      [("Ortopedi", 2, 24), ("Kirurgi", 0, 56), ("Kardiologi", 0, 22), ("Neurologi", 0, 22),
       ("Gastroenterologi", 0, 22), ("Endokrinologi", 0, 20), ("Dermatologi", 0, 20),
       ("Urologi", 0, 20), ("Gynekologi", 0, 49), ("Oftalmologi", 0, 15),
       ("Otorinolaryngologi", 0, 16)] := by decide
  rw [h]
  simp only [List.foldl, min_def]
  norm_num

lemma nyckelordFallback_artros :
    nyckelordFallback (pyLower "artros".data) = ("osakert", 5 / 4) := by
  unfold nyckelordFallback
  rw [fallbackPoang_artros]
  norm_num

lemma fallbackPoang_remiss_hjarta :
    fallbackPoang (pyLower "remiss till hjärta".data) = ("Kardiologi", 180 / 11) := by
  rw [fallbackPoang_som_tabell]
  have h : VERKSAMHETER.map
      (fun p => (p.1, poangFor (pyLower "remiss till hjärta".data) p.1 p.2, p.2.length)) =
      [("Ortopedi", 0, 24), ("Kirurgi", 0, 56), ("Kardiologi", 24, 22), ("Neurologi", 0, 22),
       ("Gastroenterologi", 0, 22), ("Endokrinologi", 0, 20), ("Dermatologi", 0, 20),
       ("Urologi", 0, 20), ("Gynekologi", 0, 49), ("Oftalmologi", 0, 15),
       ("Otorinolaryngologi", 0, 16)] := by decide
  rw [h]
  simp only [List.foldl, min_def]
  norm_num

lemma nyckelordFallback_remiss_hjarta :
    nyckelordFallback (pyLower "remiss till hjärta".data) = ("osakert", 180 / 11) := by
  unfold nyckelordFallback
  rw [fallbackPoang_remiss_hjarta]
  norm_num

lemma fallbackPoang_tom : fallbackPoang (pyLower "".data) = ("Okänd", 0) := by
  rw [fallbackPoang_som_tabell]
  have h : VERKSAMHETER.map
      (fun p => (p.1, poangFor (pyLower "".data) p.1 p.2, p.2.length)) =
      [("Ortopedi", 0, 24), ("Kirurgi", 0, 56), ("Kardiologi", 0, 22), ("Neurologi", 0, 22),
       ("Gastroenterologi", 0, 22), ("Endokrinologi", 0, 20), ("Dermatologi", 0, 20),
       ("Urologi", 0, 20), ("Gynekologi", 0, 49), ("Oftalmologi", 0, 15),
       ("Otorinolaryngologi", 0, 16)] := by decide
  rw [h]
  simp only [List.foldl, min_def]
  norm_num

lemma nyckelordFallback_tom : nyckelordFallback (pyLower "".data) = ("osakert", 0) := by
  unfold nyckelordFallback
  rw [fallbackPoang_tom]
  norm_num

/- Claim theorems. -/

/-- C1, counterexample. The claim states that the final output category is
the unknown sentinel exactly when the confidence is 0. With no AI backend
and a raising ML stage, the input text artros reaches the keyword fallback,
which returns the sentinel osakert together with the nonzero confidence
5/4: the sentinel does not imply confidence 0. -/
theorem C1_motexempel :
    (identifiera_verksamhet none (Except.error "nätverksfel") "artros").1 = "osakert" ∧
    (identifiera_verksamhet none (Except.error "nätverksfel") "artros").2 ≠ 0 := by
  have hA : aiAccept (none : Option (Except String (String × ℚ))) = none := rfl
  have hS : sokMottagare (pyLower "artros".data) = none := by decide
  have hK : sokKliniker (pyLower "artros".data) = none := by decide
  have hM : mlAccept (Except.error "nätverksfel" : Except String (String × ℚ)) = none := rfl
  rw [identifiera_steg_nyckelord hA hS hK hM, nyckelordFallback_artros]
  norm_num

/-- C1, amended. For every input and stage outcomes whose values respect
the adapter contracts (AI values never name osakert and lie in the range 0
to 100; ML values lie in the range and, when they name a sentinel - as the
untrained or raising failover cascade reachably does - carry a confidence
below 30), the final output confidence lies in the range 0 to 100, and the
output category is a sentinel (Okänd or osakert) exactly when the
confidence is below 30. -/
theorem C1_invariant (ai : Option (Except String (String × ℚ)))
    (ml : Except String (String × ℚ)) (text : String)
    (hai : ∀ v s, ai = some (Except.ok (v, s)) → v ≠ "osakert" ∧ 0 ≤ s ∧ s ≤ 100)
    (hml : ∀ v s, ml = Except.ok (v, s) →
      0 ≤ s ∧ s ≤ 100 ∧ ((v = "Okänd" ∨ v = "osakert") → s < 30)) :
    (0 ≤ (identifiera_verksamhet ai ml text).2 ∧
      (identifiera_verksamhet ai ml text).2 ≤ 100) ∧
    (((identifiera_verksamhet ai ml text).1 = "Okänd" ∨
      (identifiera_verksamhet ai ml text).1 = "osakert") ↔
      (identifiera_verksamhet ai ml text).2 < 30) := by
  cases hA : aiAccept ai with
  | some r =>
    rw [identifiera_steg_ai hA]
    obtain ⟨v, s, hAi, hr, hOk, h70⟩ := aiAccept_some hA
    obtain ⟨hOs, h0, h100⟩ := hai v s hAi
    subst hr
    refine ⟨⟨h0, h100⟩, ?_, fun h30 => absurd h30 (by simp only [not_lt]; linarith)⟩
    rintro (h1 | h1)
    · exact absurd h1 hOk
    · exact absurd h1 hOs
  | none =>
    cases hS : sokMottagare (pyLower text.data) with
    | some r =>
      rw [identifiera_steg_fras hA hS]
      obtain ⟨h95, hnamn⟩ := sokMottagare_some hS
      have hne := verksamhetsNamn_ok _ hnamn
      refine ⟨⟨by rw [h95]; norm_num, by rw [h95]; norm_num⟩, ?_,
        fun h30 => absurd h30 (by rw [h95]; norm_num)⟩
      rintro (h1 | h1)
      · exact absurd h1 hne.1
      · exact absurd h1 hne.2
    | none =>
      cases hK : sokKliniker (pyLower text.data) with
      | some r =>
        rw [identifiera_steg_klinik hA hS hK]
        obtain ⟨h90, hnamn⟩ := sokKliniker_some hK
        have hne := klinikNamn_ok _ hnamn
        refine ⟨⟨by rw [h90]; norm_num, by rw [h90]; norm_num⟩, ?_,
          fun h30 => absurd h30 (by rw [h90]; norm_num)⟩
        rintro (h1 | h1)
        · exact absurd h1 hne.1
        · exact absurd h1 hne.2
      | none =>
        cases hM : mlAccept ml with
        | some r =>
          rw [identifiera_steg_ml hA hS hK hM]
          obtain ⟨v, s, hMl, hr, h70⟩ := mlAccept_some hM
          obtain ⟨h0, h100, hsent⟩ := hml v s hMl
          subst hr
          refine ⟨⟨h0, h100⟩, fun h1 => hsent h1,
            fun h30 => absurd h30 (by simp only [not_lt]; linarith)⟩
        | none =>
          rw [identifiera_steg_nyckelord hA hS hK hM]
          exact nyckelordFallback_invariant (pyLower text.data)

/-- C1, witness for the amended theorem, at the empty text with no AI
backend and a raising ML stage: the result is the sentinel osakert with
confidence 0, which lies in the range and is below 30. -/
theorem C1_vittne :
    (0 ≤ (identifiera_verksamhet none (Except.error "fel") "").2 ∧
      (identifiera_verksamhet none (Except.error "fel") "").2 ≤ 100) ∧
    (((identifiera_verksamhet none (Except.error "fel") "").1 = "Okänd" ∨
      (identifiera_verksamhet none (Except.error "fel") "").1 = "osakert") ↔
      (identifiera_verksamhet none (Except.error "fel") "").2 < 30) :=
  C1_invariant none (Except.error "fel") ""
    (fun v s h => by cases h) (fun v s h => by cases h)

/-- C3. A document is routed to the category folder exactly when the
confidence reaches the global threshold, with equality routing to the
category and not to the uncertain folder; the threshold value is the
configured 90. -/
theorem C3_routning (verksamhet : String) (s : ℚ) :
    (bestamMalMapp verksamhet s = MalMapp.verksamhet verksamhet ↔ SANNOLIKHET_TROSKEL ≤ s) ∧
    (bestamMalMapp verksamhet s = MalMapp.osakert ↔ s < SANNOLIKHET_TROSKEL) ∧
    bestamMalMapp verksamhet SANNOLIKHET_TROSKEL = MalMapp.verksamhet verksamhet ∧
    SANNOLIKHET_TROSKEL = 90 := by
  unfold bestamMalMapp
  refine ⟨?_, ?_, by rw [if_pos le_rfl], rfl⟩
  · by_cases hc : SANNOLIKHET_TROSKEL ≤ s
    · rw [if_pos hc]
      exact ⟨fun _ => hc, fun _ => rfl⟩
    · rw [if_neg hc]
      exact ⟨(fun h => nomatch h), fun h => absurd h hc⟩
  · by_cases hc : SANNOLIKHET_TROSKEL ≤ s
    · rw [if_pos hc]
      exact ⟨(fun h => nomatch h), fun h => absurd hc (not_le.mpr h)⟩
    · rw [if_neg hc]
      exact ⟨fun _ => not_le.mp hc, fun _ => rfl⟩

/-- C8. Errors never escape classification: the adapter maps any raised
backend error to the pair of Okänd and 0; an AI stage that raises leaves
the cascade in the same state as an absent AI backend; a raising ML stage
behaves as an ML opinion of confidence 0, which is never accepted; and the
cascade always produces a result. -/
theorem C8_felhantering :
    (∀ e, aiIdentifieraAdapter (Except.error e) = ("Okänd", 0)) ∧
    (∀ e ml text, identifiera_verksamhet (some (Except.error e)) ml text =
      identifiera_verksamhet none ml text) ∧
    (∀ ai e text, identifiera_verksamhet ai (Except.error e) text =
      identifiera_verksamhet ai (Except.ok ("Okänd", 0)) text) ∧
    (∀ ai ml text, ∃ v s, identifiera_verksamhet ai ml text = (v, s)) := by
  refine ⟨fun e => rfl, fun e ml text => rfl, fun ai e text => ?_, fun ai ml text =>
    ⟨(identifiera_verksamhet ai ml text).1, (identifiera_verksamhet ai ml text).2, rfl⟩⟩
  have h1 : mlAccept (Except.error e : Except String (String × ℚ)) = none := rfl
  have h2 : mlAccept (Except.ok ("Okänd", 0) : Except String (String × ℚ)) = none := by
    have : (if (70 : ℚ) < 0 then some (("Okänd", (0 : ℚ))) else none) = none := by norm_num
    exact this
  simp only [identifiera_verksamhet, h1, h2]

/-- C2. The cascade consults the stages in the fixed order and accepts the
first qualifying result: the instrumented run returns the same result as
the plain one; an AI answer with a non-Okänd category and confidence above
70 is accepted at once and only the AI stage is consulted; when the AI
stage does not decide and the phrase matcher fires, its result (fixed score
95) is final and the clinic matcher, the statistical classifier and the
keyword scorer are never consulted; a clinic hit is accepted at its fixed
score 90; an ML answer is accepted exactly above confidence 70; and when no
earlier stage decides, the keyword fallback is taken unconditionally. -/
theorem C2_kaskadordning (ai : Option (Except String (String × ℚ)))
    (ml : Except String (String × ℚ)) (text : String) :
    ((identifiera_verksamhet_spar ai ml text).1 = identifiera_verksamhet ai ml text) ∧
    (∀ v s, ai = some (Except.ok (v, s)) → v ≠ "Okänd" → 70 < s →
      identifiera_verksamhet ai ml text = (v, s) ∧
      (identifiera_verksamhet_spar ai ml text).2 = [Steg.ai]) ∧
    (∀ r, aiAccept ai = none → sokMottagare (pyLower text.data) = some r →
      identifiera_verksamhet ai ml text = r ∧ r.2 = 95 ∧
      Steg.klinik ∉ (identifiera_verksamhet_spar ai ml text).2 ∧
      Steg.ml ∉ (identifiera_verksamhet_spar ai ml text).2 ∧
      Steg.nyckelord ∉ (identifiera_verksamhet_spar ai ml text).2) ∧
    (∀ r, aiAccept ai = none → sokMottagare (pyLower text.data) = none →
      sokKliniker (pyLower text.data) = some r →
      identifiera_verksamhet ai ml text = r ∧ r.2 = 90) ∧
    (∀ v s, aiAccept ai = none → sokMottagare (pyLower text.data) = none →
      sokKliniker (pyLower text.data) = none → ml = Except.ok (v, s) → 70 < s →
      identifiera_verksamhet ai ml text = (v, s)) ∧
    (aiAccept ai = none → sokMottagare (pyLower text.data) = none →
      sokKliniker (pyLower text.data) = none → mlAccept ml = none →
      identifiera_verksamhet ai ml text = nyckelordFallback (pyLower text.data)) := by
  refine ⟨spar_forsta, ?_, ?_, ?_, ?_, ?_⟩
  · intro v s hAi hOk h70
    have hA : aiAccept ai = some (v, s) := by
      subst hAi
      exact if_pos ⟨hOk, h70⟩
    refine ⟨identifiera_steg_ai hA, ?_⟩
    rw [spar_steg_ai hA]
  · intro r hA hS
    have ht := @spar_steg_fras ai ml text r hA hS
    have hspar : (identifiera_verksamhet_spar ai ml text).2 = aiSpar ai ++ [Steg.fras] := by
      rw [ht]
    refine ⟨identifiera_steg_fras hA hS, (sokMottagare_some hS).1, ?_, ?_, ?_⟩ <;>
      rw [hspar] <;> cases ai <;> simp [aiSpar]
  · intro r hA hS hK
    exact ⟨identifiera_steg_klinik hA hS hK, (sokKliniker_some hK).1⟩
  · intro v s hA hS hK hMl h70
    have hM : mlAccept ml = some (v, s) := by
      subst hMl
      exact if_pos h70
    exact identifiera_steg_ml hA hS hK hM
  · intro hA hS hK hM
    exact identifiera_steg_nyckelord hA hS hK hM

/-- C2, witness: an AI answer naming Kardiologi at confidence 80 is
accepted at once and only the AI stage is consulted. -/
theorem C2_vittne :
    identifiera_verksamhet (some (Except.ok ("Kardiologi", 80))) (Except.error "fel") "" =
      ("Kardiologi", 80) ∧
    (identifiera_verksamhet_spar (some (Except.ok ("Kardiologi", 80)))
      (Except.error "fel") "").2 = [Steg.ai] :=
  (C2_kaskadordning (some (Except.ok ("Kardiologi", 80))) (Except.error "fel") "").2.1
    "Kardiologi" 80 rfl (by decide) (by norm_num)

lemma frasNara_noll {tl : List Char}
    (h : ∀ fras ∈ mottagarfraser, containsSub tl fras.data = false) (nl : List Char) :
    frasNara tl nl = 0 := by
  unfold frasNara
  rw [List.length_eq_zero, List.filter_eq_nil_iff]
  intro fras hmem
  have hc := h fras hmem
  unfold containsSub at hc
  cases hfs : findSub tl fras.data with
  | some k =>
    rw [hfs] at hc
    cases hc
  | none => simp [hfs]

lemma bidrag_utan_kategori_bonus {tl : List Char} {v : String} (k : String)
    (hv1 : v ≠ "Gynekologi") (hv2 : v ≠ "Kirurgi")
    (hfras : ∀ fras ∈ mottagarfraser, containsSub tl fras.data = false) :
    bidrag tl v k = countSub tl (pyLower k.data) * 2 := by
  simp only [bidrag, frasNara_noll hfras, if_neg hv1, if_neg hv2, Nat.mul_zero, Nat.add_zero]
  by_cases h0 : countSub tl (pyLower k.data) = 0
  · rw [if_pos h0, h0]
  · rw [if_neg h0]

lemma poangFor_utan_bonus (tl : List Char) (v : String) (kws : List String)
    (hv1 : v ≠ "Gynekologi") (hv2 : v ≠ "Kirurgi")
    (hfras : ∀ fras ∈ mottagarfraser, containsSub tl fras.data = false) :
    poangFor tl v kws = 2 * ((kws.map fun k => countSub tl (pyLower k.data)).sum) := by
  unfold poangFor
  have key : ∀ (l : List String) (a : Nat),
      l.foldl (fun acc k => acc + bidrag tl v k) a =
        a + 2 * ((l.map fun k => countSub tl (pyLower k.data)).sum) := by
    intro l
    induction l with
    | nil => intro a; simp
    | cons x t ih =>
      intro a
      rw [List.foldl_cons, ih, bidrag_utan_kategori_bonus x hv1 hv2 hfras]
      simp only [List.map_cons, List.sum_cons]
      ring
  rw [key kws 0, Nat.zero_add]

lemma nyckelordFallback_snd (tl : List Char) :
    (nyckelordFallback tl).2 = (fallbackPoang tl).2 := by
  simp only [nyckelordFallback]
  split_ifs <;> rfl

/-- C4. In the keyword fallback: each category's confidence is given by the
min-100 normalization of its total score over its keyword count times 15;
when no recipient phrase occurs and the category carries no strong-term
bonus, the total score is exactly 2 per keyword occurrence; the returned
confidence is the maximum of the per-category confidences; a best value
below 30 forces the sentinel osakert carrying that value; and otherwise the
earliest registered category attaining the maximum is returned. -/
theorem C4_nyckelordsformel (text : String) :
    (∀ p ∈ VERKSAMHETER, sannolikhetFor (pyLower text.data) p =
      min 100 ((poangFor (pyLower text.data) p.1 p.2 : ℚ) / (p.2.length : ℚ) * 15)) ∧
    (∀ p ∈ VERKSAMHETER, p.1 ≠ "Gynekologi" → p.1 ≠ "Kirurgi" →
      (∀ fras ∈ mottagarfraser, containsSub (pyLower text.data) fras.data = false) →
      poangFor (pyLower text.data) p.1 p.2 =
        2 * ((p.2.map fun nyckel => countSub (pyLower text.data) (pyLower nyckel.data)).sum)) ∧
    ((nyckelordFallback (pyLower text.data)).2 =
      (VERKSAMHETER.map fun p => sannolikhetFor (pyLower text.data) p).foldl max 0) ∧
    ((fallbackPoang (pyLower text.data)).2 < 30 →
      nyckelordFallback (pyLower text.data) =
        ("osakert", (fallbackPoang (pyLower text.data)).2)) ∧
    (∀ i, ∀ hi : i < VERKSAMHETER.length,
      (∀ j, ∀ hj : j < VERKSAMHETER.length, j < i →
        sannolikhetFor (pyLower text.data) (VERKSAMHETER.get ⟨j, hj⟩) <
          sannolikhetFor (pyLower text.data) (VERKSAMHETER.get ⟨i, hi⟩)) →
      (∀ j, ∀ hj : j < VERKSAMHETER.length,
        sannolikhetFor (pyLower text.data) (VERKSAMHETER.get ⟨j, hj⟩) ≤
          sannolikhetFor (pyLower text.data) (VERKSAMHETER.get ⟨i, hi⟩)) →
      30 ≤ sannolikhetFor (pyLower text.data) (VERKSAMHETER.get ⟨i, hi⟩) →
      nyckelordFallback (pyLower text.data) =
        ((VERKSAMHETER.get ⟨i, hi⟩).1,
          sannolikhetFor (pyLower text.data) (VERKSAMHETER.get ⟨i, hi⟩))) := by
  refine ⟨fun p _ => rfl, fun p _ hv1 hv2 hfras => poangFor_utan_bonus _ p.1 p.2 hv1 hv2 hfras,
    ?_, fun h30 => by unfold nyckelordFallback; rw [if_pos h30], ?_⟩
  · rw [nyckelordFallback_snd, fallbackPoang_eq_valjBasta, valjBasta_snd]
    have hmap : ((VERKSAMHETER.map fun p => (p.1, sannolikhetFor (pyLower text.data) p)).map
        Prod.snd) = VERKSAMHETER.map fun p => sannolikhetFor (pyLower text.data) p := by
      rw [List.map_map]
      rfl
    rw [hmap]
  · intro i hi hforst hmax h30
    set tl := pyLower text.data with htl
    have himap : i < (VERKSAMHETER.map fun p => (p.1, sannolikhetFor tl p)).length := by
      simpa using hi
    have hval : fallbackPoang tl =
        ((VERKSAMHETER.get ⟨i, hi⟩).1, sannolikhetFor tl (VERKSAMHETER.get ⟨i, hi⟩)) := by
      rw [fallbackPoang_eq_valjBasta]
      have hget : ∀ (j : Nat) (hj : j < (VERKSAMHETER.map
            fun p => (p.1, sannolikhetFor tl p)).length),
          (VERKSAMHETER.map fun p => (p.1, sannolikhetFor tl p)).get ⟨j, hj⟩ =
            ((VERKSAMHETER.get ⟨j, by simpa using hj⟩).1,
              sannolikhetFor tl (VERKSAMHETER.get ⟨j, by simpa using hj⟩)) := by
        intro j hj
        exact List.get_map _
      rw [valjBasta_forsta _ _ i himap]
      · rw [hget i himap]
      · rw [hget i himap]
        exact lt_of_lt_of_le (by norm_num) h30
      · intro j hj hji
        rw [hget i himap, hget j hj]
        exact hforst j (by simpa using hj) hji
      · intro j hj
        rw [hget i himap, hget j hj]
        exact hmax j (by simpa using hj)
    unfold nyckelordFallback
    rw [hval, if_neg (not_lt.mpr h30)]

/-- C4, witness: on the text artros the best value 5/4 is below the floor
30, so the keyword fallback forces the sentinel osakert carrying it. -/
theorem C4_vittne :
    nyckelordFallback (pyLower "artros".data) =
      ("osakert", (fallbackPoang (pyLower "artros".data)).2) :=
  (C4_nyckelordsformel "artros").2.2.2.1 (by rw [fallbackPoang_artros]; norm_num)

/-- C5. In the response parser, a well-formed response whose category line
names a registered category and whose confidence line reports exactly 0 is
coerced to confidence 50 and keeps the named category. -/
theorem C5_noll_koercion (narmaste : String → String) (svar : String)
    (hv : extractVerksamhet svar ∈ verksamhetsNamn)
    (hs : extractSannolikhet svar = some 0) :
    parsaAiSvar narmaste svar = (extractVerksamhet svar, 50) := by
  have hOk : extractVerksamhet svar ≠ "Okänd" := (verksamhetsNamn_ok _ hv).1
  simp only [parsaAiSvar, hs, Option.getD_some]
  rw [if_pos hv, if_neg (not_not_intro ⟨le_refl (0 : ℚ), by norm_num⟩),
    if_pos ⟨trivial, hOk⟩]

/-- C5, witness: a concrete response naming Ortopedi with confidence 0 is
parsed to Ortopedi at 50. -/
theorem C5_vittne :
    parsaAiSvar (fun v => v)
      "Verksamhet: Ortopedi\nSannolikhet: 0%\nMotivering: oklart" = ("Ortopedi", 50) := by
  have h := C5_noll_koercion (fun v => v)
    "Verksamhet: Ortopedi\nSannolikhet: 0%\nMotivering: oklart" (by decide) (by decide)
  rwa [show extractVerksamhet "Verksamhet: Ortopedi\nSannolikhet: 0%\nMotivering: oklart" =
    "Ortopedi" from by decide] at h

/-- C6, counterexample. The claim states that an unparseable confidence is
defaulted to 75. On the concrete response whose confidence line reads hög,
the parse fails, the confidence keeps its initial value 0 and is then
coerced to 50 by the 0-rule, not defaulted to 75. -/
theorem C6_motexempel :
    extractSannolikhet "Verksamhet: Ortopedi\nSannolikhet: hög" = none ∧
    (parsaAiSvar (fun v => v) "Verksamhet: Ortopedi\nSannolikhet: hög").2 = 50 ∧
    ((50 : ℚ) ≠ 75) := by
  refine ⟨by decide, ?_, by norm_num⟩
  simp only [parsaAiSvar,
    show extractSannolikhet "Verksamhet: Ortopedi\nSannolikhet: hög" = none from by decide,
    Option.getD_none]
  rw [if_pos (show extractVerksamhet "Verksamhet: Ortopedi\nSannolikhet: hög" ∈
      verksamhetsNamn from by decide),
    if_neg (not_not_intro ⟨le_refl (0 : ℚ), by norm_num⟩),
    if_pos ⟨trivial, show extractVerksamhet "Verksamhet: Ortopedi\nSannolikhet: hög" ≠ "Okänd"
      from by decide⟩]

/-- C6, amended. A parsed confidence lying outside the range 0 to 100 is
defaulted to 75; an unparseable or missing confidence instead keeps the
initial value 0 and is then coerced to 50 when the validated category is
not Okänd, and stays 0 otherwise. -/
theorem C6_standard75 (narmaste : String → String) (svar : String) :
    (∀ x, extractSannolikhet svar = some x → ¬(0 ≤ x ∧ x ≤ 100) →
      (parsaAiSvar narmaste svar).2 = 75) ∧
    (extractSannolikhet svar = none →
      ((parsaAiSvar narmaste svar).1 ≠ "Okänd" ∧ (parsaAiSvar narmaste svar).2 = 50) ∨
      ((parsaAiSvar narmaste svar).1 = "Okänd" ∧ (parsaAiSvar narmaste svar).2 = 0)) := by
  have h1 : (parsaAiSvar narmaste svar).1 =
      (if extractVerksamhet svar ∈ verksamhetsNamn then extractVerksamhet svar
        else narmaste (extractVerksamhet svar)) := rfl
  constructor
  · intro x hx hrange
    simp only [parsaAiSvar, hx, Option.getD_some]
    rw [if_pos hrange]
  · intro hx
    by_cases hOk : (parsaAiSvar narmaste svar).1 ≠ "Okänd"
    · refine Or.inl ⟨hOk, ?_⟩
      simp only [parsaAiSvar, hx, Option.getD_none]
      rw [if_neg (not_not_intro ⟨le_refl (0 : ℚ), by norm_num⟩), if_pos ⟨trivial, h1 ▸ hOk⟩]
    · push_neg at hOk
      refine Or.inr ⟨hOk, ?_⟩
      simp only [parsaAiSvar, hx, Option.getD_none]
      rw [if_neg (not_not_intro ⟨le_refl (0 : ℚ), by norm_num⟩),
        if_neg (fun hc => hc.2 (h1 ▸ hOk))]

/-- C6, witness for the amended theorem: a parsed confidence of 150 lies
outside the range and is defaulted to 75. -/
theorem C6_vittne :
    (parsaAiSvar (fun v => v) "Verksamhet: Ortopedi\nSannolikhet: 150%").2 = 75 :=
  (C6_standard75 (fun v => v) "Verksamhet: Ortopedi\nSannolikhet: 150%").1 150
    (by decide) (by norm_num)

/-- C7, counterexample. The claim states that the first category keyword by
forward scan of the window wins. In the text remiss till hjärta led, the
window holds the Kardiologi keyword hjärta before the Ortopedi keyword led;
the forward-scan reading picks Kardiologi, but the code consults the
registry in registration order and returns Ortopedi. -/
theorem C7_motexempel :
    sokMottagare (pyLower "remiss till hjärta led".data) = some ("Ortopedi", 95) ∧
    sokMottagareSpec (pyLower "remiss till hjärta led".data) = some ("Kardiologi", 95) ∧
    (("Ortopedi", (95 : ℚ)) ≠ ("Kardiologi", (95 : ℚ))) :=
  ⟨by decide, by decide, by decide⟩

/-- C7, amended. On a phrase-matcher hit the confidence is 95 and the
result is determined by the first phrase in the configured list that occurs
in the text and whose 200-character window starting at the match holds a
category keyword: every earlier phrase either misses the text or has a
keyword-free window, and the winning category is the first one in
registration order with any keyword occurring anywhere in that window; the
keywords of every earlier-registered category miss the window. -/
theorem C7_frasmatchare (tl : List Char) (v : String) (c : ℚ)
    (h : sokMottagare tl = some (v, c)) :
    c = 95 ∧
    ∃ k, ∃ hk : k < mottagarfraser.length, ∃ idx,
      findSub tl (mottagarfraser.get ⟨k, hk⟩).data = some idx ∧
      windowMatch ((tl.drop idx).take 200) = some v ∧
      (∀ j, ∀ hj : j < mottagarfraser.length, j < k → ∀ jdx,
        findSub tl (mottagarfraser.get ⟨j, hj⟩).data = some jdx →
        windowMatch ((tl.drop jdx).take 200) = none) ∧
      ∃ i, ∃ hi : i < VERKSAMHETER.length,
        (VERKSAMHETER.get ⟨i, hi⟩).1 = v ∧
        ((VERKSAMHETER.get ⟨i, hi⟩).2.any fun nyckel =>
          containsSub ((tl.drop idx).take 200) (pyLower nyckel.data)) = true ∧
        ∀ j, ∀ hj : j < VERKSAMHETER.length, j < i →
          ((VERKSAMHETER.get ⟨j, hj⟩).2.any fun nyckel =>
            containsSub ((tl.drop idx).take 200) (pyLower nyckel.data)) = false := by
  obtain ⟨k, hk, hfk, hprevf⟩ := findSome?_eq_some_forsta h
  have hfk' : (match findSub tl (mottagarfraser.get ⟨k, hk⟩).data with
      | none => none
      | some idx =>
        match windowMatch ((tl.drop idx).take 200) with
        | some w => some (w, (95 : ℚ))
        | none => none) = some (v, c) := hfk
  cases hidx : findSub tl (mottagarfraser.get ⟨k, hk⟩).data with
  | none =>
    rw [hidx] at hfk'
    have h' : (none : Option (String × ℚ)) = some (v, c) := hfk'
    cases h'
  | some idx =>
    rw [hidx] at hfk'
    have hf' : (match windowMatch ((tl.drop idx).take 200) with
        | some w => some (w, (95 : ℚ))
        | none => none) = some (v, c) := hfk'
    cases hw : windowMatch ((tl.drop idx).take 200) with
    | none =>
      rw [hw] at hf'
      have h' : (none : Option (String × ℚ)) = some (v, c) := hf'
      cases h'
    | some w =>
      rw [hw] at hf'
      have h2 : ((w, (95 : ℚ)) : String × ℚ) = (v, c) := Option.some.inj hf'
      injection h2 with hv hc
      subst hv
      subst hc
      refine ⟨rfl, k, hk, idx, hidx, hw, ?_, ?_⟩
      · intro j hj hjk jdx hjdx
        have hpj := hprevf j hj hjk
        have hpj' : (match findSub tl (mottagarfraser.get ⟨j, hj⟩).data with
            | none => none
            | some jdx2 =>
              match windowMatch ((tl.drop jdx2).take 200) with
              | some w2 => some (w2, (95 : ℚ))
              | none => none) = none := hpj
        rw [hjdx] at hpj'
        have hpj2 : (match windowMatch ((tl.drop jdx).take 200) with
            | some w2 => some (w2, (95 : ℚ))
            | none => none) = none := hpj'
        cases hwj : windowMatch ((tl.drop jdx).take 200) with
        | none => rfl
        | some w2 =>
          rw [hwj] at hpj2
          cases hpj2
      obtain ⟨i, hi, hfi, hprev⟩ := findSome?_eq_some_forsta hw
      refine ⟨i, hi, ?_, ?_, ?_⟩
      · by_cases hany : ((VERKSAMHETER.get ⟨i, hi⟩).2.any fun nyckel =>
            containsSub ((tl.drop idx).take 200) (pyLower nyckel.data)) = true
        · rw [if_pos hany] at hfi
          exact Option.some.inj hfi
        · rw [if_neg hany] at hfi
          cases hfi
      · by_cases hany : ((VERKSAMHETER.get ⟨i, hi⟩).2.any fun nyckel =>
            containsSub ((tl.drop idx).take 200) (pyLower nyckel.data)) = true
        · exact hany
        · rw [if_neg hany] at hfi
          cases hfi
      · intro j hj hji
        have hpj := hprev j hj hji
        by_cases hany : ((VERKSAMHETER.get ⟨j, hj⟩).2.any fun nyckel =>
            containsSub ((tl.drop idx).take 200) (pyLower nyckel.data)) = true
        · rw [if_pos hany] at hpj
          cases hpj
        · exact Bool.eq_false_iff.mpr hany

/-- C7, witness for the amended theorem: on the text remiss till hjärta the
phrase matcher fires at the fixed confidence 95, for Kardiologi. -/
theorem C7_vittne :
    (95 : ℚ) = 95 ∧
    sokMottagare (pyLower "remiss till hjärta".data) = some ("Kardiologi", 95) :=
  ⟨(C7_frasmatchare (pyLower "remiss till hjärta".data) "Kardiologi" 95 (by decide)).1,
    by decide⟩

/-- C9, counterexample. The claim states that an untrained statistical
classifier fails over to the keyword scorer. On the text remiss till hjärta
the untrained classifier instead runs the full cascade of a fresh
RemissSorterare, whose phrase matcher returns Kardiologi at 95, while the
keyword scorer on the same text yields the sentinel osakert at 180/11. -/
theorem C9_motexempel :
    ml_identifiera_verksamhet false (Except.error "otränad") none (Except.error "otränad")
      "remiss till hjärta" = ("Kardiologi", 95) ∧
    nyckelordFallback (pyLower "remiss till hjärta".data) = ("osakert", 180 / 11) ∧
    (("Kardiologi", (95 : ℚ)) ≠ ("osakert", (180 / 11 : ℚ))) := by
  refine ⟨?_, nyckelordFallback_remiss_hjarta, by decide⟩
  show identifiera_verksamhet none (Except.error "otränad") "remiss till hjärta" =
    ("Kardiologi", 95)
  exact identifiera_steg_fras rfl (by decide)

/-- C9, amended. With no trained model, predict runs the full cascade of a
fresh RemissSorterare, whatever the trained-model outcome would have been;
only when that cascade has no AI backend, no phrase or clinic hit and no
accepted ML opinion does the failover reduce to the keyword scorer. -/
theorem C9_otranad_kaskad (model : Except String (String × ℚ))
    (fbAi : Option (Except String (String × ℚ))) (fbMl : Except String (String × ℚ))
    (text : String) :
    ml_identifiera_verksamhet false model fbAi fbMl text =
      identifiera_verksamhet fbAi fbMl text ∧
    (aiAccept fbAi = none → sokMottagare (pyLower text.data) = none →
      sokKliniker (pyLower text.data) = none → mlAccept fbMl = none →
      ml_identifiera_verksamhet false model fbAi fbMl text =
        nyckelordFallback (pyLower text.data)) := by
  refine ⟨rfl, fun hA hS hK hM => ?_⟩
  show identifiera_verksamhet fbAi fbMl text = nyckelordFallback (pyLower text.data)
  exact identifiera_steg_nyckelord hA hS hK hM

/-- C9, witness for the amended theorem: untrained, with no AI backend, no
phrase or clinic hit on artros and a raising fallback ML stage, predict
returns exactly the keyword-scorer result, ignoring the model outcome. -/
theorem C9_vittne :
    ml_identifiera_verksamhet false (Except.ok ("Ortopedi", 99)) none (Except.error "fel")
      "artros" = nyckelordFallback (pyLower "artros".data) :=
  (C9_otranad_kaskad (Except.ok ("Ortopedi", 99)) none (Except.error "fel") "artros").2
    rfl (by decide) (by decide) rfl

lemma foldl_add_som_summa {α : Type} (f : α → Nat) (l : List α) (a : Nat) :
    l.foldl (fun acc x => acc + f x) a = a + (l.map f).sum := by
  induction l generalizing a with
  | nil => simp
  | cons x t ih =>
    rw [List.foldl_cons, ih]
    simp only [List.map_cons, List.sum_cons]
    ring

lemma summa_med_bonus {α : Type} (g : α → Nat) (m : α → Bool) (B : Nat) (l : List α) :
    (l.map fun x => g x + (if m x then B else 0)).sum =
      (l.map g).sum + B * (l.filter m).length := by
  induction l with
  | nil => simp
  | cons x t ih =>
    by_cases hm : m x
    · simp only [List.map_cons, List.sum_cons, ih, List.filter_cons, hm, if_pos,
        List.length_cons]
      ring
    · simp only [List.map_cons, List.sum_cons, ih, List.filter_cons, hm, Bool.false_eq_true,
        if_neg, if_false]
      ring

lemma bidrag_dekomponering (tl : List Char) (v : String) (k : String) :
    bidrag tl v k = bidragUtanBonus tl k +
      (if (countSub tl (pyLower k.data) != 0) then bonusFor v tl else 0) := by
  simp only [bidrag, bidragUtanBonus, bonusFor]
  by_cases h0 : countSub tl (pyLower k.data) = 0
  · simp [h0]
  · simp only [h0, if_neg, bne_iff_ne, ne_eq, not_false_eq_true, if_pos]
    ring

lemma poangFor_dekomponering (tl : List Char) (v : String) (kws : List String) :
    poangFor tl v kws =
      kws.foldl (fun acc k => acc + bidragUtanBonus tl k) 0 +
        bonusFor v tl *
          (kws.filter fun k => countSub tl (pyLower k.data) != 0).length := by
  unfold poangFor
  rw [foldl_add_som_summa (fun k => bidrag tl v k) kws 0, Nat.zero_add,
    foldl_add_som_summa (fun k => bidragUtanBonus tl k) kws 0, Nat.zero_add]
  rw [List.map_congr_left (fun k _ => bidrag_dekomponering tl v k)]
  exact summa_med_bonus (fun k => bidragUtanBonus tl k)
    (fun k => countSub tl (pyLower k.data) != 0) (bonusFor v tl) kws

/-- C10, counterexample. The claim states that each strong-indicator term
present contributes a fixed 15 to the category total, independent of the
matched keywords. On the text livmoder graviditet, two Gynekologi keywords
match and two strong terms are present: the independent reading gives the
total 34, the code adds the bonus once per matched keyword and gives 64. -/
theorem C10_motexempel :
    poangFor (pyLower "livmoder graviditet".data) "Gynekologi" (nyckelordFor "Gynekologi") = 64 ∧
    poangForSpec (pyLower "livmoder graviditet".data) "Gynekologi"
      (nyckelordFor "Gynekologi") = 34 ∧
    (64 : ℕ) ≠ 34 :=
  ⟨by decide, by decide, by decide⟩

/-- C10, amended. For the sensitive categories Gynekologi and Kirurgi, the
category total equals the bonus-free total plus 15 per strong term present
per matched keyword: the strong-term bonus is multiplied by the number of
the category keywords that occur, not added once. -/
theorem C10_termbonus (text : String) (kws : List String) :
    (poangFor (pyLower text.data) "Gynekologi" kws =
      kws.foldl (fun acc k => acc + bidragUtanBonus (pyLower text.data) k) 0 +
        15 * termTraffar gynekologiska_termer (pyLower text.data) *
          (kws.filter fun k => countSub (pyLower text.data) (pyLower k.data) != 0).length) ∧
    (poangFor (pyLower text.data) "Kirurgi" kws =
      kws.foldl (fun acc k => acc + bidragUtanBonus (pyLower text.data) k) 0 +
        15 * termTraffar kirurgiska_termer (pyLower text.data) *
          (kws.filter fun k => countSub (pyLower text.data) (pyLower k.data) != 0).length) := by
  have hg : bonusFor "Gynekologi" (pyLower text.data) =
      15 * termTraffar gynekologiska_termer (pyLower text.data) := by
    unfold bonusFor
    rw [if_pos rfl, if_neg (by decide : ¬("Gynekologi" = "Kirurgi")), Nat.add_zero]
  have hk : bonusFor "Kirurgi" (pyLower text.data) =
      15 * termTraffar kirurgiska_termer (pyLower text.data) := by
    unfold bonusFor
    rw [if_neg (by decide : ¬("Kirurgi" = "Gynekologi")), if_pos rfl, Nat.zero_add]
  exact ⟨by rw [poangFor_dekomponering, hg], by rw [poangFor_dekomponering, hk]⟩

end Remissorterare
